import Mathlib

/-!
Shallow embedding of `src/Stresstest_dockers.py` (polycyber/infra): a
load-testing orchestrator that provisions containers against a remote
Docker-compatible daemon.  The embedding models:

* JSON values (Python dicts preserve insertion order, so objects are
  ordered association lists);
* the MD5 hash (`hashlib.md5(...).hexdigest()`), implemented from RFC 1321
  so that the Identity Namer (`container_name`) is an executable pure
  function of its inputs;
* `create_container` (lines 22-91) with its effects made explicit: the
  random stream, the temp-file namespace, the HTTP layer (as a response
  oracle invoked only where the source reads a response body), and the
  filesystem (association list of path/content pairs);
* the orchestrator loop of `main` (lines 108-119).

Python exceptions are modelled with `Except`; the unbounded rejection
sampling `while True:` loop of the port allocator is modelled with fuel,
`none` standing for non-termination.
-/

namespace Stress

/-- JSON values.  Python's `dict` preserves insertion order, so objects are
ordered association lists of key/value pairs. -/
inductive Json where
  | null
  | bool (b : Bool)
  | str (s : String)
  | num (n : Int)
  | arr (elems : List Json)
  | obj (fields : List (String × Json))
deriving Repr

/-- Python exceptions that the modelled code can raise. -/
inductive PyErr where
  | keyError (k : String)
  | typeError
  | indexError
  | valueError
deriving Repr, DecidableEq

/-- Field lookup in a JSON object (first matching key), `none` when the value
is not an object or the key is missing. -/
def Json.getField? : Json → String → Option Json
  | .obj fields, k => fields.lookup k
  | _, _ => none

/-- Python `result[k]` on a parsed JSON value: on a dict a missing key raises
`KeyError`, on any non-dict value string subscription raises `TypeError`. -/
def pyIndex (j : Json) (k : String) : Except PyErr Json :=
  match j.getField? k with
  | some v => .ok v
  | none => match j with
    | .obj _ => .error (.keyError k)
    | _ => .error .typeError

/-- Python truthiness (`if result:`): empty containers, `0`, `""`, `None` and
`False` are falsy. -/
def jsonTruthy : Json → Bool
  | .null => false
  | .bool b => b
  | .str s => !(s.isEmpty)
  | .num n => n != 0
  | .arr l => !(l.isEmpty)
  | .obj l => !(l.isEmpty)

/-- Python `'%s' % v` interpolation of a parsed JSON value into a string.
Only the string and number cases are exercised by the source (the daemon's
`Id` field); the container cases approximate `repr`. -/
def pyStr : Json → String
  | .null => "None"
  | .bool b => if b then "True" else "False"
  | .str s => s
  | .num n => toString n
  | .arr _ => "[...]"
  | .obj _ => "\x7b...\x7d"

/-- Minimal JSON string escaping (backslash and double quote), enough for the
payload strings the source produces. -/
def jsonEscape (s : String) : String :=
  s.data.foldl (fun acc c =>
    if c = '\\' then acc ++ "\\\\"
    else if c = '"' then acc ++ "\\\""
    else acc.push c) ""

mutual

/-- Python json.dumps with its default separators (`", "` and `": "`). -/
def Json.dumps : Json → String
  | .null => "null"
  | .bool b => if b then "true" else "false"
  | .str s => "\"" ++ jsonEscape s ++ "\""
  | .num n => toString n
  | .arr l => "[" ++ Json.dumpsElems l ++ "]"
  | .obj l => "\x7b" ++ Json.dumpsFields l ++ "\x7d"

/-- Comma-joined rendering of a JSON array's elements. -/
def Json.dumpsElems : List Json → String
  | [] => ""
  | [x] => Json.dumps x
  | x :: y :: rest => Json.dumps x ++ ", " ++ Json.dumpsElems (y :: rest)

/-- Comma-joined rendering of a JSON object's fields. -/
def Json.dumpsFields : List (String × Json) → String
  | [] => ""
  | [kv] => "\"" ++ jsonEscape kv.1 ++ "\": " ++ Json.dumps kv.2
  | kv :: kw :: rest =>
      "\"" ++ jsonEscape kv.1 ++ "\": " ++ Json.dumps kv.2 ++ ", "
        ++ Json.dumpsFields (kw :: rest)

end

/-- Helper for `pySplit`: split a character list on a separator character;
the result always has at least one (possibly empty) group. -/
def splitAux (sep : Char) : List Char → List (List Char)
  | [] => [[]]
  | c :: cs =>
      match splitAux sep cs with
      | [] => [[]]
      | g :: gs => if c = sep then [] :: g :: gs else (c :: g) :: gs

/-- Python `s.split(sep)` for a one-character separator (the source splits
on `':'` and `'/'`): at least one group, empty groups preserved. -/
def pySplit (s : String) (sep : Char) : List String :=
  (splitAux sep s.data).map String.mk

/-- Python dict assignment `d[k] = v`: overwrite in place when the key
exists (keeping its position), otherwise append a new entry. -/
def dictSet (d : List (String × Json)) (k : String) (v : Json) :
    List (String × Json) :=
  if d.any (fun kv => kv.1 == k) then
    d.map (fun kv => if kv.1 == k then (k, v) else kv)
  else d ++ [(k, v)]

/-- A filesystem is an association list of (path, content) pairs.  Writing a
file overwrites its content when the path exists, otherwise creates it.  The
source never deletes a file, so no removal operation occurs anywhere in the
embedding of `create_container`. -/
def fsWrite (fs : List (String × String)) (p c : String) :
    List (String × String) :=
  if fs.any (fun e => e.1 == p) then
    fs.map (fun e => if e.1 == p then (p, c) else e)
  else fs ++ [(p, c)]

/-! ## MD5 (RFC 1321), as used by `hashlib.md5(team.encode("utf-8")).hexdigest()` -/

/-- Truncation to 32 bits. -/
def m32 (x : Nat) : Nat := x % 4294967296

/-- Left rotation on 32 bits (argument expected `< 2 ^ 32`, amount `≤ 32`). -/
def rotl (x n : Nat) : Nat := (x * 2 ^ n) % 4294967296 + x / 2 ^ (32 - n)

/-- Bitwise NOT on 32 bits. -/
def not32 (x : Nat) : Nat := Nat.xor x 4294967295

/-- MD5 round function F (rounds 0-15). -/
def mdF (b c d : Nat) : Nat := Nat.lor (Nat.land b c) (Nat.land (not32 b) d)

/-- MD5 round function G (rounds 16-31). -/
def mdG (b c d : Nat) : Nat := Nat.lor (Nat.land d b) (Nat.land (not32 d) c)

/-- MD5 round function H (rounds 32-47). -/
def mdH (b c d : Nat) : Nat := Nat.xor (Nat.xor b c) d

/-- MD5 round function I (rounds 48-63). -/
def mdI (b c d : Nat) : Nat := Nat.xor c (Nat.lor b (not32 d))

/-- The 64 MD5 sine-derived constants `floor(abs(sin(i+1)) * 2^32)`. -/
def kTable : List Nat :=
  [3614090360, 3905402710, 606105819, 3250441966, 4118548399, 1200080426,
   2821735955, 4249261313, 1770035416, 2336552879, 4294925233, 2304563134,
   1804603682, 4254626195, 2792965006, 1236535329, 4129170786, 3225465664,
   643717713, 3921069994, 3593408605, 38016083, 3634488961, 3889429448,
   568446438, 3275163606, 4107603335, 1163531501, 2850285829, 4243563512,
   1735328473, 2368359562, 4294588738, 2272392833, 1839030562, 4259657740,
   2763975236, 1272893353, 4139469664, 3200236656, 681279174, 3936430074,
   3572445317, 76029189, 3654602809, 3873151461, 530742520, 3299628645,
   4096336452, 1126891415, 2878612391, 4237533241, 1700485571, 2399980690,
   4293915773, 2240044497, 1873313359, 4264355552, 2734768916, 1309151649,
   4149444226, 3174756917, 718787259, 3951481745]

/-- The 64 MD5 per-round left-rotation amounts. -/
def sTable : List Nat :=
  [7, 12, 17, 22, 7, 12, 17, 22, 7, 12, 17, 22, 7, 12, 17, 22,
   5, 9, 14, 20, 5, 9, 14, 20, 5, 9, 14, 20, 5, 9, 14, 20,
   4, 11, 16, 23, 4, 11, 16, 23, 4, 11, 16, 23, 4, 11, 16, 23,
   6, 10, 15, 21, 6, 10, 15, 21, 6, 10, 15, 21, 6, 10, 15, 21]

/-- One MD5 operation: round `i` applied to state `(a, b, c, d)` with message
words `M`. -/
def md5round (M : Nat → Nat) (i : Nat) : Nat × Nat × Nat × Nat → Nat × Nat × Nat × Nat
  | (a, b, c, d) =>
    let f := if i < 16 then mdF b c d
      else if i < 32 then mdG b c d
      else if i < 48 then mdH b c d
      else mdI b c d
    let g := if i < 16 then i
      else if i < 32 then (5 * i + 1) % 16
      else if i < 48 then (3 * i + 5) % 16
      else (7 * i) % 16
    let tmp := m32 (a + f + kTable.getD i 0 + M g)
    (d, m32 (b + rotl tmp (sTable.getD i 0)), b, c)

/-- Little-endian 32-bit word `j` of a 64-byte chunk. -/
def leWord (chunk : List Nat) (j : Nat) : Nat :=
  chunk.getD (4 * j) 0 + 256 * chunk.getD (4 * j + 1) 0
    + 65536 * chunk.getD (4 * j + 2) 0 + 16777216 * chunk.getD (4 * j + 3) 0

/-- Process one 64-byte chunk, updating the running MD5 state. -/
def md5block (chunk : List Nat) (st : Nat × Nat × Nat × Nat) :
    Nat × Nat × Nat × Nat :=
  let r := (List.range 64).foldl (fun t i => md5round (leWord chunk) i t) st
  (m32 (st.1 + r.1), m32 (st.2.1 + r.2.1), m32 (st.2.2.1 + r.2.2.1),
   m32 (st.2.2.2 + r.2.2.2))

/-- Fold the MD5 block function over all 64-byte chunks of a message; the
first argument bounds the number of chunks (structural recursion so the
kernel can evaluate it). -/
def md5go : Nat → Nat × Nat × Nat × Nat → List Nat → Nat × Nat × Nat × Nat
  | 0, st, _ => st
  | _ + 1, st, [] => st
  | n + 1, st, b :: bs =>
      md5go n (md5block ((b :: bs).take 64) st) (bs.drop 63)

/-- Fold the MD5 block function over all 64-byte chunks of a message. -/
def md5chunks (st : Nat × Nat × Nat × Nat) (msg : List Nat) :
    Nat × Nat × Nat × Nat :=
  md5go msg.length st msg

/-- RFC 1321 padding: append `0x80`, zero bytes to 56 mod 64, then the bit
length as a 64-bit little-endian quantity. -/
def md5pad (msg : List Nat) : List Nat :=
  let len := msg.length
  let zeros := (119 - len % 64) % 64
  let bits := (8 * len) % (2 ^ 64)
  msg ++ [128] ++ List.replicate zeros 0
    ++ [bits % 256, bits / 256 % 256, bits / 65536 % 256, bits / 16777216 % 256,
        bits / 4294967296 % 256, bits / 1099511627776 % 256,
        bits / 281474976710656 % 256, bits / 72057594037927936 % 256]

/-- Encoding of one Unicode code point as UTF-8 bytes. -/
def utf8Bytes (c : Nat) : List Nat :=
  if c < 128 then [c]
  else if c < 2048 then [192 + c / 64, 128 + c % 64]
  else if c < 65536 then
    [224 + c / 4096, 128 + c / 64 % 64, 128 + c % 64]
  else
    [240 + c / 262144, 128 + c / 4096 % 64, 128 + c / 64 % 64, 128 + c % 64]

/-- Bytes of the UTF-8 encoding of a string (`team.encode("utf-8")`). -/
def strBytes (s : String) : List Nat :=
  (s.data.map (fun c => utf8Bytes c.toNat)).flatten

/-- Hex digit character for a value `< 16` (lowercase). -/
def hexDigit (n : Nat) : Char :=
  if n < 10 then Char.ofNat (48 + n) else Char.ofNat (87 + n)

/-- Two lowercase hex digits of a byte. -/
def byteHex (b : Nat) : String :=
  String.mk [hexDigit (b / 16 % 16), hexDigit (b % 16)]

/-- Little-endian hex rendering of a 32-bit word (byte by byte). -/
def wordHex (w : Nat) : String :=
  byteHex (w % 256) ++ byteHex (w / 256 % 256) ++ byteHex (w / 65536 % 256)
    ++ byteHex (w / 16777216 % 256)

/-- Hex digest of the MD5 hash, `hashlib.md5(s.encode("utf-8")).hexdigest()`. -/
def md5hex (s : String) : String :=
  let d := md5chunks (1732584193, 4023233417, 2562383102, 271733878)
    (md5pad (strBytes s))
  wordHex d.1 ++ wordHex d.2.1 ++ wordHex d.2.2.1 ++ wordHex d.2.2.2

/-! ## The program: `Stresstest_dockers.py` -/

/-- The connection profile object (class `MockDocker`, lines 9-15).
Credential fields model Python's `None` as `Option.none`; a `none`
credential makes the corresponding `write` call raise (the only
materialization failure mode exercised by the embedding). -/
structure MockDocker where
  tls_enabled : Bool
  hostname : String
  ca_cert : Option String
  client_cert : Option String
  client_key : Option String

/-- An HTTP POST as issued by `requests.post` in the source: URL, optional
client-certificate pair (`cert=`), optional `verify=` flag, optional request
body (`data=`).  The constant `Content-Type: application/json` header is
omitted.  The create call always carries a body; the start call never
does. -/
structure HttpReq where
  url : String
  cert : Option (String × String)
  verifyFlag : Option Bool
  body : Option String
deriving Repr, DecidableEq

/-- The ambient effects of one `create_container` call: the stream of draws
of `random.choice(range(30000, 60000))` (wrapped into the range by
`candidate`), the names handed out by `tempfile.NamedTemporaryFile`, and the
parsed JSON body of each HTTP response (`r.json()`).  The response oracle is
consulted only where the source reads a response body, which the start call
never does. -/
structure Env where
  rand : Nat → Nat
  tmpName : Nat → String
  net : HttpReq → Json

/-- The value returned by `create_container`: the bare `[]` of the cert
`except` branch (line 48), or the pair `result, data` (line 91) of the
parsed create response and the `json.dumps` payload string. -/
inductive CCRet where
  | emptyList
  | pair (result : Json) (data : String)
deriving Repr

/-- Observable outcome of one `create_container` call.  `ret = none` models
non-termination of the unbounded port-sampling loop (fuel exhausted);
`some (.error e)` an uncaught Python exception; `requests` the POSTs issued;
`fs` the filesystem after the call; `payload` the dict built at line 76
(before `json.dumps`), when execution reaches it. -/
structure CCOut where
  ret : Option (Except PyErr CCRet)
  requests : List HttpReq
  fs : List (String × String)
  payload : Option Json

/-- Function `get_required_ports` (lines 17-19): the image's declared exposed ports;
constantly `["80/tcp"]` in the source. -/
def get_required_ports (_docker : MockDocker) (_image : String) : List String :=
  ["80/tcp"]

/-- Lines 52-53: `team = hashlib.md5(team.encode("utf-8")).hexdigest()[:10]`
then `container_name = "%s_%s" % (image.split(':')[0], team)`. -/
def containerName (image team : String) : String :=
  ((pySplit image ':').headD "") ++ "_" ++ (md5hex team).take 10

/-- Model of `random.choice(range(30000, 60000))`: the `n`-th draw of the random
stream, projected into `[30000, 60000)`. -/
def candidate (rand : Nat → Nat) (n : Nat) : Nat :=
  30000 + rand n % 30000

/-- The `while True:` rejection-sampling loop (lines 58-64): draw candidates
starting at stream position `k` until one is not in `portbl`; returns the
accepted port and the next stream position.  `fuel` bounds the number of
draws, `none` standing for non-termination of the unbounded source loop. -/
def pickPort (rand : Nat → Nat) (portbl : List Nat) :
    Nat → Nat → Option (Nat × Nat)
  | 0, _ => none
  | fuel + 1, k =>
      let c := candidate rand k
      if c ∈ portbl then pickPort rand portbl fuel (k + 1)
      else some (c, k + 1)

/-- The `for i in needed_ports:` allocation loop (lines 57-64), threading the
`assigned_ports` dict, the `ports_list`, and the random-stream position.
Each accepted port is keyed `"<port>/<protocol>"` in `assigned_ports`
(protocol = `i.split('/')[1]`) and appended to `ports_list`.  Only
membership in `portbl` is checked; earlier assignments of the same call are
not consulted. -/
def allocPorts (rand : Nat → Nat) (portbl : List Nat) (fuel : Nat) :
    List String → Nat → List (String × Json) → List Nat →
    Option (List (String × Json) × List Nat × Nat)
  | [], k, dict, plist => some (dict, plist, k)
  | i :: rest, k, dict, plist =>
      match pickPort rand portbl fuel k with
      | none => none
      | some (p, k') =>
          let proto := (pySplit i '/').getD 1 ""
          allocPorts rand portbl fuel rest k'
            (dictSet dict (toString p ++ "/" ++ proto) (.obj []))
            (plist ++ [p])

/-- Python `list.pop()`: removes and returns the last element, `none` when
the list is empty (an `IndexError` in the source). -/
def popLast : List String → Option (String × List String)
  | [] => none
  | [x] => some (x, [])
  | x :: y :: rest =>
      match popLast (y :: rest) with
      | some (z, zs) => some (z, x :: zs)
      | none => none

/-- The second `for i in needed_ports:` loop (lines 68-70): build the
`ports` dict (`ports[i] = {}`) and the `bindings` dict
(`bindings[i] = [{"HostPort": tmp_ports.pop()}]`), popping the keys of
`assigned_ports` from the end.  `pop` on an exhausted list raises
`IndexError`. -/
def buildPortsBindings :
    List String → List String → List (String × Json) → List (String × Json) →
    Except PyErr (List (String × Json) × List (String × Json))
  | [], _, ports, bindings => .ok (ports, bindings)
  | i :: rest, tmp, ports, bindings =>
      let ports' := dictSet ports i (.obj [])
      match popLast tmp with
      | none => .error .indexError
      | some (x, tmp') =>
          buildPortsBindings rest tmp' ports'
            (dictSet bindings i (.arr [.obj [("HostPort", .str x)]]))

/-- The creation payload dict of line 76 (the argument of `json.dumps`). -/
def mkPayload (image : String) (ports bindings : List (String × Json))
    (envList : List String) : Json :=
  .obj [("Image", .str image),
        ("ExposedPorts", .obj ports),
        ("HostConfig", .obj [("PortBindings", .obj bindings),
                             ("CpuShares", .num 512),
                             ("Memory", .num 2000000000)]),
        ("Env", .arr (envList.map .str))]

/-- The `try` block of lines 29-48: materialize CA, client certificate and
client key as named temporary files (`delete=False`; creation and the
`write` are collapsed into one `fsWrite`, a failed `write` leaving the
just-created file empty).  A `none` credential makes `write` raise, which
the bare `except` catches: the result is `none` and the files created so
far remain on disk.  On success the result is `CERT =
(client_file.name, key_file.name)` — the CA file's name is not part of
`CERT`. -/
def certPhase (docker : MockDocker) (tmpName : Nat → String)
    (fs : List (String × String)) :
    Option (String × String) × List (String × String) :=
  match docker.ca_cert with
  | none => (none, fsWrite fs (tmpName 0) "")
  | some ca =>
      let fs1 := fsWrite fs (tmpName 0) ca
      match docker.client_cert with
      | none => (none, fsWrite fs1 (tmpName 1) "")
      | some cc =>
          let fs2 := fsWrite fs1 (tmpName 1) cc
          match docker.client_key with
          | none => (none, fsWrite fs2 (tmpName 2) "")
          | some ck => (some (tmpName 1, tmpName 2), fsWrite fs2 (tmpName 2) ck)

/-- Intermediate outcome of the part of `create_container` after the cert
block (lines 49-91); this part performs no filesystem operation. -/
structure BodyOut where
  ret : Option (Except PyErr CCRet)
  requests : List HttpReq
  payload : Option Json

/-- Lines 80-82 and 87-91: parse the create response — `result['Id']`, an
uncaught exception when absent — then issue the start POST, whose response
object is never read, and return `result, data`. -/
def finishCreate (urlTemplate : String) (cert : Option (String × String))
    (verify : Option Bool) (createReq : HttpReq) (dataStr : String)
    (payload : Json) (resp : Json) : BodyOut :=
  match pyIndex resp "Id" with
  | .error e => ⟨some (.error e), [createReq], some payload⟩
  | .ok idv =>
      let startReq : HttpReq :=
        ⟨urlTemplate ++ "/containers/" ++ pyStr idv ++ "/start",
         cert, verify, none⟩
      ⟨some (.ok (.pair resp dataStr)), [createReq, startReq], some payload⟩

/-- Lines 49-76 of `create_container`: URL template, required ports,
container name, port allocation, ports/bindings dicts, environment list,
payload string, and the create request.  This part never touches the
network; the result is either an early `BodyOut` (allocation loop did not
finish, or `tmp_ports.pop()` raised) or the prepared create request
together with the URL template, payload string and payload dict. -/
def prepareCreate (docker : MockDocker) (image team : String)
    (portbl : List Nat) (rand : Nat → Nat) (fuel : Nat) (tls : Bool)
    (cert : Option (String × String)) :
    Except BodyOut (String × HttpReq × String × Json) :=
  let scheme := if tls then "https" else "http"
  let urlTemplate := scheme ++ "://" ++ docker.hostname
  let needed := get_required_ports docker image
  let name := containerName image team
  match allocPorts rand portbl fuel needed 0 [] [] with
  | none => .error ⟨none, [], none⟩
  | some (assigned, plist, _) =>
      match buildPortsBindings needed (assigned.map (fun kv => kv.1)) [] [] with
      | .error e => .error ⟨some (.error e), [], none⟩
      | .ok (ports, bindings) =>
          let envList := ["PORTS=" ++ String.intercalate "," (plist.map toString)]
          let payload := mkPayload image ports bindings envList
          let dataStr := payload.dumps
          let verify := if tls then some false else none
          let createReq : HttpReq :=
            ⟨urlTemplate ++ "/containers/create?name=" ++ name,
             cert, verify, some dataStr⟩
          .ok (urlTemplate, createReq, dataStr, payload)

/-- Lines 49-91 of `create_container`: prepare the create request, POST it,
then `finishCreate` applied to the create response.  `tls` selects the
scheme and whether `cert=CERT, verify=False` are passed. -/
def createContainerBody (docker : MockDocker) (image team : String)
    (portbl : List Nat) (rand : Nat → Nat) (net : HttpReq → Json)
    (fuel : Nat) (tls : Bool) (cert : Option (String × String)) : BodyOut :=
  match prepareCreate docker image team portbl rand fuel tls cert with
  | .error out => out
  | .ok (urlTemplate, createReq, dataStr, payload) =>
      finishCreate urlTemplate cert (if tls then some false else none)
        createReq dataStr payload (net createReq)

/-- Function `create_container` (lines 22-91).  In plaintext mode the cert block is
skipped; in encrypted mode a materialization failure is caught and the call
returns the bare `[]` (line 48), leaving the already-created temp files in
place.  No branch of the function removes a file. -/
def createContainer (docker : MockDocker) (image team : String)
    (portbl : List Nat) (env : Env) (fuel : Nat)
    (fs : List (String × String)) : CCOut :=
  if docker.tls_enabled then
    match certPhase docker env.tmpName fs with
    | (none, fs') => ⟨some (.ok .emptyList), [], fs', none⟩
    | (some cert, fs') =>
        let b := createContainerBody docker image team portbl env.rand env.net
          fuel true (some cert)
        ⟨b.ret, b.requests, fs', b.payload⟩
  else
    let b := createContainerBody docker image team portbl env.rand env.net
      fuel false none
    ⟨b.ret, b.requests, fs, b.payload⟩

/-- Outcome of a whole orchestrator run (`main`, lines 108-119).  `raised`
carries the `results` list and used-ports set at the moment the exception
escaped the loop. -/
inductive RunOutcome where
  | diverges
  | raised (e : PyErr) (results : List Json) (portbl : List Nat)
  | finished (results : List Json) (portbl : List Nat)
deriving Repr

/-- Python `set.add` on the used-ports set. -/
def setAdd (s : List Nat) (x : Nat) : List Nat :=
  if x ∈ s then s else s ++ [x]

/-- The `for i in range(50):` loop of `main` (lines 111-117), generalized to
`n` remaining iterations with attempt index `i`.  `teamOf i` is the draw of
`random.choice(teams)` for attempt `i` and `envs i` its ambient effects.
Each iteration unpacks `result, data = create_container(...)` — unpacking
the bare `[]` raises `ValueError` — then, when `result` is truthy, appends
it to `results` and evaluates `data['HostConfig']`.  Since `data` is the
`json.dumps` string, subscripting it with a string raises `TypeError`
(line 116) before any port can be added to `portbl`. -/
def mainLoop (docker : MockDocker) (image : String) (teamOf : Nat → String)
    (envs : Nat → Env) (fuel : Nat) :
    Nat → Nat → List Nat → List Json → List (String × String) → RunOutcome
  | _, 0, portbl, results, _ => .finished results portbl
  | i, n + 1, portbl, results, fs =>
      let out := createContainer docker image (teamOf i) portbl (envs i) fuel fs
      match out.ret with
      | none => .diverges
      | some (.error e) => .raised e results portbl
      | some (.ok .emptyList) => .raised .valueError results portbl
      | some (.ok (.pair result dataStr)) =>
          if jsonTruthy result then
            match pyIndex (.str dataStr) "HostConfig" with
            | .error e => .raised e (results ++ [result]) portbl
            | .ok _ => .raised .typeError (results ++ [result]) portbl
          else
            mainLoop docker image teamOf envs fuel (i + 1) n portbl results out.fs

/-! ## Concrete fixtures used by witnesses and counterexamples -/

/-- A plaintext connection profile (no credentials). -/
def dockerPlain : MockDocker := ⟨false, "172.17.0.1:2376", none, none, none⟩

/-- An encrypted connection profile with all three credentials present,
as built in `main` (lines 102-106). -/
def dockerTls : MockDocker :=
  ⟨true, "172.17.0.1:2376", some "CA", some "CC", some "CK"⟩

/-- An encrypted profile whose client certificate is `None`, so that the
second `write` of the cert block raises. -/
def dockerBadClient : MockDocker :=
  ⟨true, "172.17.0.1:2376", some "CA", none, some "CK"⟩

/-- A daemon oracle that answers every POST with a create-style response
carrying an `Id` field. -/
def netOk : HttpReq → Json := fun _ => .obj [("Id", .str "abc123")]

/-- A daemon oracle whose responses carry no `Id` field. -/
def netNoId : HttpReq → Json := fun _ => .obj [("Warning", .str "oops")]

/-- A daemon oracle that agrees with `netOk` on create calls (which carry a
body) but answers start calls (no body) with a different value. -/
def netStartErr : HttpReq → Json := fun r =>
  if r.body.isSome then .obj [("Id", .str "abc123")] else .str "ServerError"

/-- A deterministic temp-file name supply. -/
def tmpNames : Nat → String := fun n => "/tmp/f" ++ toString n

/-- Fixture environment: constant random stream, daemon always succeeds. -/
def envOk : Env := ⟨fun _ => 0, tmpNames, netOk⟩

/-- Fixture environment: daemon responses lack the `Id` field. -/
def envNoId : Env := ⟨fun _ => 0, tmpNames, netNoId⟩

/-- A placeholder request used as the default for `List.headD`. -/
def noReq : HttpReq := ⟨"", none, none, none⟩

/-! ## Helper lemmas -/

/-- Any port accepted by the sampling loop lies in `[30000, 60000)` and is
not in the supplied used-ports set. -/
theorem pickPort_sound {rand : Nat → Nat} {portbl : List Nat} :
    ∀ {fuel k p k'}, pickPort rand portbl fuel k = some (p, k') →
      30000 ≤ p ∧ p < 60000 ∧ p ∉ portbl := by
  intro fuel
  induction fuel with
  | zero => intro k p k' h; simp [pickPort] at h
  | succ n ih =>
      intro k p k' h
      by_cases hc : candidate rand k ∈ portbl
      · rw [pickPort, if_pos hc] at h
        exact ih h
      · rw [pickPort, if_neg hc] at h
        obtain ⟨hp, _⟩ := Prod.mk.injEq .. ▸ Option.some.injEq .. ▸ h
        subst hp
        refine ⟨Nat.le_add_right _ _, ?_, hc⟩
        have : rand k % 30000 < 30000 := Nat.mod_lt _ (by omega)
        unfold candidate
        omega

/-- Every port in the output list of the allocation loop is either carried
over from the accumulator or satisfies the sampling-loop guarantee. -/
theorem allocPorts_mem {rand : Nat → Nat} {portbl : List Nat} {fuel : Nat} :
    ∀ {needed : List String} {k : Nat} {dict : List (String × Json)}
      {plist : List Nat} {d pl k'},
      allocPorts rand portbl fuel needed k dict plist = some (d, pl, k') →
      ∀ p ∈ pl, p ∈ plist ∨ (30000 ≤ p ∧ p < 60000 ∧ p ∉ portbl) := by
  intro needed
  induction needed with
  | nil =>
      intro k dict plist d pl k' h p hp
      simp only [allocPorts, Option.some.injEq, Prod.mk.injEq] at h
      obtain ⟨-, h2, -⟩ := h
      exact Or.inl (h2 ▸ hp)
  | cons i rest ih =>
      intro k dict plist d pl k' h p hp
      rw [allocPorts] at h
      cases hq : pickPort rand portbl fuel k with
      | none => rw [hq] at h; simp at h
      | some qk =>
          obtain ⟨q, k2⟩ := qk
          rw [hq] at h
          rcases ih h p hp with hmem | hgood
          · rcases List.mem_append.1 hmem with h1 | h1
            · exact Or.inl h1
            · have : p = q := by simpa using h1
              exact Or.inr (this ▸ pickPort_sound hq)
          · exact Or.inr hgood

/-- The path list of a filesystem after `fsWrite` depends only on the prior
path list and the written path, not on any file content. -/
theorem fsWrite_map_fst (fs : List (String × String)) (p c : String) :
    (fsWrite fs p c).map Prod.fst =
      if (fs.map Prod.fst).any (fun x => x == p) then
        (fs.map Prod.fst).map (fun x => if x == p then p else x)
      else fs.map Prod.fst ++ [p] := by
  have hcond : ((fs.map Prod.fst).any (fun x => x == p))
      = fs.any (fun e => e.1 == p) := by
    induction fs with
    | nil => rfl
    | cons e t ih => simp only [List.map_cons, List.any_cons, ih]
  unfold fsWrite
  rw [hcond]
  by_cases h : fs.any (fun e => e.1 == p)
  · rw [if_pos h, if_pos h, List.map_map, List.map_map]
    apply List.map_congr_left
    intro e _
    by_cases he : e.1 == p <;> simp [Function.comp, he]
  · rw [if_neg h, if_neg h]
    simp

/-- A path just written is present afterwards. -/
theorem mem_fsWrite_self (fs : List (String × String)) (p c : String) :
    p ∈ (fsWrite fs p c).map Prod.fst := by
  rw [fsWrite_map_fst]
  by_cases h : (fs.map Prod.fst).any (fun x => x == p)
  · rw [if_pos h]
    obtain ⟨x, hx, hxp⟩ := List.any_eq_true.1 h
    exact List.mem_map.2 ⟨x, hx, by simp [hxp]⟩
  · rw [if_neg h]
    simp

/-- Writing one file never removes another: paths persist across `fsWrite`. -/
theorem mem_fsWrite_of_mem {fs : List (String × String)} {a : String}
    (p c : String) (h : a ∈ fs.map Prod.fst) :
    a ∈ (fsWrite fs p c).map Prod.fst := by
  rw [fsWrite_map_fst]
  by_cases hc : (fs.map Prod.fst).any (fun x => x == p)
  · rw [if_pos hc]
    refine List.mem_map.2 ⟨a, h, ?_⟩
    by_cases hap : a == p
    · rw [if_pos hap]
      exact (eq_of_beq hap).symm
    · rw [if_neg hap]
  · rw [if_neg hc]
    exact List.mem_append_left _ h

/-- Reduction of the allocation loop for the source's single requirement
list `["80/tcp"]`. -/
theorem alloc_single {rand : Nat → Nat} {portbl : List Nat} {fuel p k : Nat}
    (hpick : pickPort rand portbl fuel 0 = some (p, k)) :
    allocPorts rand portbl fuel ["80/tcp"] 0 [] []
      = some ([(toString p ++ "/tcp", Json.obj [])], [p], k) := by
  rw [allocPorts, hpick]
  show allocPorts rand portbl fuel [] k
      (dictSet [] (toString p ++ "/" ++ (pySplit "80/tcp" '/').getD 1 "")
        (.obj [])) ([] ++ [p])
    = some ([(toString p ++ "/tcp", Json.obj [])], [p], k)
  rw [allocPorts]
  simp [dictSet, pySplit, splitAux, String.append_assoc]

/-- Reduction of the ports/bindings loop for the single requirement
`["80/tcp"]` and a one-key assigned dict. -/
theorem bpb_single (x : String) :
    buildPortsBindings ["80/tcp"] [x] [] []
      = .ok ([("80/tcp", Json.obj [])],
             [("80/tcp", Json.arr [Json.obj [("HostPort", Json.str x)]])]) :=
  rfl

/-- The payload reported by `finishCreate` is the one it was given,
whatever the create response was. -/
theorem finishCreate_payload (u : String) (cert : Option (String × String))
    (v : Option Bool) (r : HttpReq) (d : String) (pay resp : Json) :
    (finishCreate u cert v r d pay resp).payload = some pay := by
  unfold finishCreate
  split <;> rfl

/-- The first request issued by `finishCreate` is the create request,
whatever the create response was. -/
theorem finishCreate_head (u : String) (cert : Option (String × String))
    (v : Option Bool) (r : HttpReq) (d : String) (pay resp : Json) :
    (finishCreate u cert v r d pay resp).requests.headD noReq = r := by
  unfold finishCreate
  split <;> rfl

/-- When the create response has no `Id` field, the call's result is the
propagated `KeyError`. -/
theorem finishCreate_missing_id (u : String) (cert : Option (String × String))
    (v : Option Bool) (r : HttpReq) (d : String) (pay resp : Json)
    (h : pyIndex resp "Id" = .error (.keyError "Id")) :
    (finishCreate u cert v r d pay resp).ret
      = some (.error (.keyError "Id")) := by
  unfold finishCreate
  rw [h]

/-- Reduction of `createContainer` in plaintext mode. -/
theorem cc_plain {docker : MockDocker} (image team : String)
    (portbl : List Nat) (env : Env) (fuel : Nat) (fs : List (String × String))
    (h : docker.tls_enabled = false) :
    createContainer docker image team portbl env fuel fs =
      ⟨(createContainerBody docker image team portbl env.rand env.net fuel
          false none).ret,
       (createContainerBody docker image team portbl env.rand env.net fuel
          false none).requests,
       fs,
       (createContainerBody docker image team portbl env.rand env.net fuel
          false none).payload⟩ := by
  simp [createContainer, h]

/-- Reduction of `createContainer` in encrypted mode when materialization
succeeds. -/
theorem cc_tls {docker : MockDocker} (image team : String)
    (portbl : List Nat) (env : Env) (fuel : Nat)
    {fs fs2 : List (String × String)} {cert : String × String}
    (h : docker.tls_enabled = true)
    (hcp : certPhase docker env.tmpName fs = (some cert, fs2)) :
    createContainer docker image team portbl env fuel fs =
      ⟨(createContainerBody docker image team portbl env.rand env.net fuel
          true (some cert)).ret,
       (createContainerBody docker image team portbl env.rand env.net fuel
          true (some cert)).requests,
       fs2,
       (createContainerBody docker image team portbl env.rand env.net fuel
          true (some cert)).payload⟩ := by
  simp [createContainer, h, hcp]

/-- Reduction of `createContainer` in encrypted mode when materialization
fails: the bare `[]` is returned, no request is issued, the files created
so far stay on disk. -/
theorem cc_certfail {docker : MockDocker} (image team : String)
    (portbl : List Nat) (env : Env) (fuel : Nat)
    {fs fs2 : List (String × String)}
    (h : docker.tls_enabled = true)
    (hcp : certPhase docker env.tmpName fs = (none, fs2)) :
    createContainer docker image team portbl env fuel fs
      = ⟨some (.ok .emptyList), [], fs2, none⟩ := by
  simp [createContainer, h, hcp]

/-- In any run that builds a payload, the payload (and the body of the
create request that carries it) is fully determined by the accepted port:
exposed port `80/tcp`, a one-element binding list whose `HostPort` is the
string `"<port>/tcp"`, `CpuShares` 512, `Memory` 2000000000, and
`Env = ["PORTS=<port>"]`. -/
theorem body_payload_shape (docker : MockDocker) (image team : String)
    (portbl : List Nat) (rand : Nat → Nat) (net : HttpReq → Json)
    (fuel : Nat) (tls : Bool) (cert : Option (String × String)) (p k : Nat)
    (hpick : pickPort rand portbl fuel 0 = some (p, k)) :
    (createContainerBody docker image team portbl rand net fuel tls
        cert).payload
      = some (mkPayload image [("80/tcp", .obj [])]
          [("80/tcp", .arr [.obj [("HostPort", .str (toString p ++ "/tcp"))]])]
          ["PORTS=" ++ toString p])
    ∧ ((createContainerBody docker image team portbl rand net fuel tls
          cert).requests.headD noReq).body
      = some (mkPayload image [("80/tcp", .obj [])]
          [("80/tcp", .arr [.obj [("HostPort", .str (toString p ++ "/tcp"))]])]
          ["PORTS=" ++ toString p]).dumps := by
  have halloc := alloc_single hpick
  simp only [createContainerBody, prepareCreate, get_required_ports]
  rw [halloc]
  simp only [List.map_cons, List.map_nil]
  rw [bpb_single]
  exact ⟨finishCreate_payload .., finishCreate_head .. ▸ rfl⟩

/-- Whenever the sampling loop accepts a port, the first request issued is
the create POST, addressed to
`<scheme>://<host>/containers/create?name=<name>` with the deterministic
container name. -/
theorem body_head_url (docker : MockDocker) (image team : String)
    (portbl : List Nat) (rand : Nat → Nat) (net : HttpReq → Json)
    (fuel : Nat) (tls : Bool) (cert : Option (String × String)) (p k : Nat)
    (hpick : pickPort rand portbl fuel 0 = some (p, k)) :
    ((createContainerBody docker image team portbl rand net fuel tls
        cert).requests.headD noReq).url
      = (if tls then "https" else "http") ++ "://" ++ docker.hostname
        ++ "/containers/create?name=" ++ containerName image team := by
  have halloc := alloc_single hpick
  simp only [createContainerBody, prepareCreate, get_required_ports]
  rw [halloc]
  simp only [List.map_cons, List.map_nil]
  rw [bpb_single]
  rw [finishCreate_head]

/-- Whenever the sampling loop accepts a port and every daemon response
lacks the `Id` field, the attempt's result is the uncaught `KeyError`. -/
theorem body_missing_id (docker : MockDocker) (image team : String)
    (portbl : List Nat) (rand : Nat → Nat) (net : HttpReq → Json)
    (fuel : Nat) (tls : Bool) (cert : Option (String × String)) (p k : Nat)
    (hpick : pickPort rand portbl fuel 0 = some (p, k))
    (hnet : ∀ r : HttpReq, pyIndex (net r) "Id" = .error (.keyError "Id")) :
    (createContainerBody docker image team portbl rand net fuel tls
        cert).ret = some (.error (.keyError "Id")) := by
  have halloc := alloc_single hpick
  simp only [createContainerBody, prepareCreate, get_required_ports]
  rw [halloc]
  simp only [List.map_cons, List.map_nil]
  rw [bpb_single]
  rw [finishCreate_missing_id _ _ _ _ _ _ _ (hnet _)]

/-- A create request prepared by `prepareCreate` always carries the payload
string as its body. -/
theorem prepareCreate_ok_body (docker : MockDocker) (image team : String)
    (portbl : List Nat) (rand : Nat → Nat) (fuel : Nat) (tls : Bool)
    (cert : Option (String × String)) (u : String) (cr : HttpReq)
    (d : String) (pay : Json)
    (h : prepareCreate docker image team portbl rand fuel tls cert
      = .ok (u, cr, d, pay)) :
    cr.body = some d := by
  simp only [prepareCreate, get_required_ports] at h
  split at h
  · exact Except.noConfusion h
  · split at h
    · exact Except.noConfusion h
    · simp only [Except.ok.injEq, Prod.mk.injEq] at h
      obtain ⟨-, hcr, hd, -⟩ := h
      subst hcr hd
      rfl

/-- The body of `create_container` reads the network only at the create
request (the start response is discarded), so two oracles that agree on
requests carrying a body yield identical outcomes. -/
theorem body_net_eq (docker : MockDocker) (image team : String)
    (portbl : List Nat) (rand : Nat → Nat) (fuel : Nat) (tls : Bool)
    (cert : Option (String × String)) (net1 net2 : HttpReq → Json)
    (h : ∀ r : HttpReq, r.body.isSome = true → net1 r = net2 r) :
    createContainerBody docker image team portbl rand net1 fuel tls cert
      = createContainerBody docker image team portbl rand net2 fuel tls
          cert := by
  unfold createContainerBody
  rcases hprep : prepareCreate docker image team portbl rand fuel tls cert
    with out | ⟨u, cr, d, pay⟩
  · rfl
  · have hbody := prepareCreate_ok_body docker image team portbl rand fuel
      tls cert u cr d pay hprep
    show finishCreate _ _ _ cr _ _ (net1 cr) = finishCreate _ _ _ cr _ _ (net2 cr)
    rw [h cr (by rw [hbody]; rfl)]

/-! ## Claims -/

/-- C9: the port-allocation rejection-sampling loop has no bound on retries
and no failure path.  When every integer of `[30000, 60000)` is in the
used-ports set, no amount of fuel makes the loop terminate (the source's
`while True:` spins forever); when some port is free, the loop returns at
the first stream position whose candidate is free. -/
theorem C9_rejection_sampling (rand : Nat → Nat) (portbl : List Nat) :
    ((∀ q, 30000 ≤ q → q < 60000 → q ∈ portbl) →
      ∀ fuel k, pickPort rand portbl fuel k = none)
    ∧ (∀ k j fuel, k ≤ j → j - k < fuel →
        candidate rand j ∉ portbl →
        (∀ m, k ≤ m → m < j → candidate rand m ∈ portbl) →
        pickPort rand portbl fuel k = some (candidate rand j, j + 1)) := by
  constructor
  · intro hfull fuel
    induction fuel with
    | zero => intro k; rfl
    | succ n ih =>
        intro k
        have hc : candidate rand k ∈ portbl := by
          have : rand k % 30000 < 30000 := Nat.mod_lt _ (by omega)
          exact hfull _ (Nat.le_add_right _ _) (by unfold candidate; omega)
        simp only [pickPort]
        rw [if_pos hc]
        exact ih (k + 1)
  · intro k j fuel
    induction fuel generalizing k with
    | zero => intro _ h2 _ _; omega
    | succ n ih =>
        intro h1 h2 hfree hblock
        by_cases hkj : k = j
        · subst hkj
          simp only [pickPort]
          rw [if_neg hfree]
        · have hkj2 : k < j := lt_of_le_of_ne h1 hkj
          have hc : candidate rand k ∈ portbl := hblock k le_rfl hkj2
          simp only [pickPort]
          rw [if_pos hc]
          exact ih (k + 1) hkj2 (by omega) hfree
            (fun m hm1 hm2 => hblock m (by omega) hm2)

/-- Witness for C9: with every port of the range used the loop yields no
result at fuel 5; with an empty used-set it returns the first candidate. -/
theorem C9_witness :
    pickPort (fun _ => 0) (List.range' 30000 30000) 5 0 = none
    ∧ pickPort (fun _ => 0) [] 1 0 = some (30000, 1) := by
  constructor
  · exact (C9_rejection_sampling (fun _ => 0) (List.range' 30000 30000)).1
      (fun q h1 h2 => by rw [List.mem_range'_1]; omega) 5 0
  · have h := (C9_rejection_sampling (fun _ => 0) []).2 0 0 1 le_rfl
      (by omega) (by simp) (fun m hm1 hm2 => absurd hm2 (by omega))
    rw [h]
    norm_num [candidate]

/-- C2 as stated is false at this input: with two required ports and a
random stream that repeats its draw, the loop assigns host port 30000 to
both requirements of the same call — the loop consults only the supplied
used-ports set, never the ports assigned earlier in the call. -/
theorem C2_counterexample :
    allocPorts (fun _ => 0) [] 2 ["80/tcp", "81/tcp"] 0 [] []
      = some ([("30000/tcp", Json.obj [])], [30000, 30000], 2)
    ∧ ¬ List.Pairwise (fun a b => a ≠ b) [30000, 30000] := by
  exact ⟨rfl, by decide⟩

/-- C2 amended: every host port assigned by the port-allocation loop lies
in `[30000, 60000)` and is not a member of the supplied used-ports set;
distinctness from host ports assigned earlier in the same call is not
guaranteed. -/
theorem C2_ports_in_range_and_fresh (rand : Nat → Nat) (portbl : List Nat)
    (fuel : Nat) (needed : List String) (d : List (String × Json))
    (pl : List Nat) (k : Nat)
    (h : allocPorts rand portbl fuel needed 0 [] [] = some (d, pl, k)) :
    ∀ p ∈ pl, 30000 ≤ p ∧ p < 60000 ∧ p ∉ portbl := by
  intro p hp
  rcases allocPorts_mem h p hp with hmem | hgood
  · exact absurd hmem (List.not_mem_nil p)
  · exact hgood

/-- Witness for the amended C2. -/
theorem C2_witness :
    allocPorts (fun _ => 0) [40000] 2 ["80/tcp"] 0 [] []
      = some ([("30000/tcp", Json.obj [])], [30000], 1)
    ∧ (30000 ≤ 30000 ∧ 30000 < 60000 ∧ 30000 ∉ [40000]) := by
  refine ⟨rfl, ?_⟩
  exact C2_ports_in_range_and_fresh (fun _ => 0) [40000] 2 ["80/tcp"] _ _ _
    rfl 30000 (by norm_num [candidate])

/-- C1 as stated is false at this input: when the daemon's create response
is a JSON object with no identifier field, `create_container` raises
`KeyError('Id')` — it does not return an empty result — and the
orchestrator loop aborts with that exception instead of recording zero
results and proceeding to the next iteration. -/
theorem C1_counterexample :
    (createContainer dockerPlain "httpd:latest" "alpha" [] envNoId 2 []).ret
      = some (.error (.keyError "Id"))
    ∧ mainLoop dockerPlain "httpd:latest" (fun _ => "alpha")
        (fun _ => envNoId) 2 0 50 [] [] []
      = .raised (.keyError "Id") [] [] :=
  ⟨rfl, rfl⟩

/-- C1 corrected: on every attempt that reaches the create call and whose
daemon responses are objects without an identifier field,
`create_container` raises `KeyError('Id')` (uncaught), and the orchestrator
loop in `main` propagates the exception and aborts the run with no result
recorded for the attempt. -/
theorem C1_missing_id_raises (docker : MockDocker) (image team : String)
    (portbl : List Nat) (env : Env) (fuel : Nat) (fs : List (String × String))
    (p k : Nat) (teamOf : Nat → String) (envs : Nat → Env) (i n : Nat)
    (results : List Json)
    (hpick : pickPort env.rand portbl fuel 0 = some (p, k))
    (hcert : docker.tls_enabled = true →
      ∃ cert fs2, certPhase docker env.tmpName fs = (some cert, fs2))
    (hnet : ∀ r : HttpReq, pyIndex (env.net r) "Id" = .error (.keyError "Id"))
    (henv : envs i = env) (hteam : teamOf i = team) :
    (createContainer docker image team portbl env fuel fs).ret
      = some (.error (.keyError "Id"))
    ∧ mainLoop docker image teamOf envs fuel i (n + 1) portbl results fs
      = .raised (.keyError "Id") results portbl := by
  have hret : (createContainer docker image team portbl env fuel fs).ret
      = some (.error (.keyError "Id")) := by
    cases htls : docker.tls_enabled with
    | false =>
        rw [cc_plain image team portbl env fuel fs htls]
        exact body_missing_id _ _ _ _ _ _ _ _ _ _ _ hpick hnet
    | true =>
        obtain ⟨cert, fs2, hcp⟩ := hcert htls
        rw [cc_tls image team portbl env fuel htls hcp]
        exact body_missing_id _ _ _ _ _ _ _ _ _ _ _ hpick hnet
  refine ⟨hret, ?_⟩
  simp only [mainLoop, henv, hteam]
  rw [hret]

/-- C5: when credential materialization fails in encrypted mode (here the
client certificate is `None`, so the second `write` raises), the attempt
returns the bare `[]` and issues no request, but the files created before
the failure are NOT released, and `main`'s unpacking
`result, data = create_container(...)` of the bare `[]` raises
`ValueError`, aborting the whole run instead of continuing with the next
attempt. -/
theorem C5_cert_failure_behavior :
    (createContainer dockerBadClient "httpd:latest" "alpha" [] envOk 1 []).ret
      = some (.ok .emptyList)
    ∧ (createContainer dockerBadClient "httpd:latest" "alpha" [] envOk 1 []).fs
      = [("/tmp/f0", "CA"), ("/tmp/f1", "")]
    ∧ (createContainer dockerBadClient "httpd:latest" "alpha" [] envOk 1
        []).requests = []
    ∧ mainLoop dockerBadClient "httpd:latest" (fun _ => "alpha")
        (fun _ => envOk) 1 0 50 [] [] []
      = .raised .valueError [] [] :=
  ⟨rfl, rfl, rfl, rfl⟩

/-- C6: the used-ports fold of `main` is unreachable.  On the very first
successful creation, `main` subscripts the `json.dumps` STRING with
`'HostConfig'`, raising `TypeError`; the run aborts with the used-ports set
still empty (the one successful result was appended just before), so the
set never grows and no port is ever folded in. -/
theorem C6_fold_typeerror :
    mainLoop dockerPlain "httpd:latest" (fun _ => "alpha") (fun _ => envOk)
        2 0 50 [] [] []
      = .raised .typeError [.obj [("Id", .str "abc123")]] [] :=
  rfl

/-- C3 as stated is false at this input: after a fully successful encrypted
attempt (payload built, both POSTs issued), all three certificate temp
files still exist at the paths that were created — no exit path of
`create_container` deletes them. -/
theorem C3_counterexample :
    ((createContainer dockerTls "httpd:latest" "alpha" [] envOk 2 []).fs.map
        Prod.fst)
      = ["/tmp/f0", "/tmp/f1", "/tmp/f2"]
    ∧ (createContainer dockerTls "httpd:latest" "alpha" [] envOk 2
        []).payload.isSome = true :=
  ⟨rfl, rfl⟩

/-- C3 corrected: in encrypted mode the transient certificate files are
created with `delete=False` and never deleted — on every exit path of the
attempt (materialization failure at any step, create failure, or success)
every file that was materialized still exists at its path after the attempt
completes. -/
theorem C3_cert_files_persist (docker : MockDocker) (image team : String)
    (portbl : List Nat) (env : Env) (fuel : Nat) (fs : List (String × String))
    (htls : docker.tls_enabled = true) :
    env.tmpName 0 ∈
      (createContainer docker image team portbl env fuel fs).fs.map Prod.fst
    ∧ (docker.ca_cert.isSome = true → env.tmpName 1 ∈
        (createContainer docker image team portbl env fuel fs).fs.map
          Prod.fst)
    ∧ (docker.ca_cert.isSome = true → docker.client_cert.isSome = true →
        env.tmpName 2 ∈
          (createContainer docker image team portbl env fuel fs).fs.map
            Prod.fst) := by
  cases hca : docker.ca_cert with
  | none =>
      have hcp : certPhase docker env.tmpName fs
          = (none, fsWrite fs (env.tmpName 0) "") := by
        simp [certPhase, hca]
      rw [cc_certfail image team portbl env fuel htls hcp]
      refine ⟨mem_fsWrite_self .., ?_, ?_⟩
      · intro hic
        simp at hic
      · intro hic _
        simp at hic
  | some ca =>
      cases hcc : docker.client_cert with
      | none =>
          have hcp : certPhase docker env.tmpName fs
              = (none, fsWrite (fsWrite fs (env.tmpName 0) ca)
                  (env.tmpName 1) "") := by
            simp [certPhase, hca, hcc]
          rw [cc_certfail image team portbl env fuel htls hcp]
          refine ⟨mem_fsWrite_of_mem _ _ (mem_fsWrite_self ..),
            fun _ => mem_fsWrite_self .., ?_⟩
          intro _ hic
          simp at hic
      | some cc =>
          cases hck : docker.client_key with
          | none =>
              have hcp : certPhase docker env.tmpName fs
                  = (none, fsWrite (fsWrite (fsWrite fs (env.tmpName 0) ca)
                      (env.tmpName 1) cc) (env.tmpName 2) "") := by
                simp [certPhase, hca, hcc, hck]
              rw [cc_certfail image team portbl env fuel htls hcp]
              exact ⟨mem_fsWrite_of_mem _ _
                  (mem_fsWrite_of_mem _ _ (mem_fsWrite_self ..)),
                fun _ => mem_fsWrite_of_mem _ _ (mem_fsWrite_self ..),
                fun _ _ => mem_fsWrite_self ..⟩
          | some ck =>
              have hcp : certPhase docker env.tmpName fs
                  = (some (env.tmpName 1, env.tmpName 2),
                     fsWrite (fsWrite (fsWrite fs (env.tmpName 0) ca)
                      (env.tmpName 1) cc) (env.tmpName 2) ck) := by
                simp [certPhase, hca, hcc, hck]
              rw [cc_tls image team portbl env fuel htls hcp]
              exact ⟨mem_fsWrite_of_mem _ _
                  (mem_fsWrite_of_mem _ _ (mem_fsWrite_self ..)),
                fun _ => mem_fsWrite_of_mem _ _ (mem_fsWrite_self ..),
                fun _ _ => mem_fsWrite_self ..⟩

/-- Witness for the amended C3. -/
theorem C3_witness :
    "/tmp/f0" ∈ (createContainer dockerTls "httpd:latest" "alpha" [] envOk 1
        []).fs.map Prod.fst
    ∧ "/tmp/f1" ∈ (createContainer dockerTls "httpd:latest" "alpha" [] envOk
        1 []).fs.map Prod.fst
    ∧ "/tmp/f2" ∈ (createContainer dockerTls "httpd:latest" "alpha" [] envOk
        1 []).fs.map Prod.fst := by
  have h := C3_cert_files_persist dockerTls "httpd:latest" "alpha" [] envOk
    1 [] rfl
  exact ⟨h.1, h.2.1 rfl, h.2.2 rfl rfl⟩

/-- Witness for the amended C1. -/
theorem C1_witness :
    (createContainer dockerPlain "httpd:latest" "alpha" [] envNoId 3 []).ret
      = some (.error (.keyError "Id"))
    ∧ mainLoop dockerPlain "httpd:latest" (fun _ => "alpha")
        (fun _ => envNoId) 3 0 1 [] [] []
      = .raised (.keyError "Id") [] [] := by
  exact C1_missing_id_raises dockerPlain "httpd:latest" "alpha" [] envNoId 3
    [] 30000 1 (fun _ => "alpha") (fun _ => envNoId) 0 0 [] rfl
    (fun hh => absurd hh (by decide)) (fun r => rfl) rfl rfl

/-- C4 as stated is false at this input: the payload sent to the create
call maps "80/tcp" under HostConfig.PortBindings to a one-element list
whose HostPort field is the string "30000/tcp" — the assigned-ports dict
key, which keeps the protocol suffix — not the bare string "30000". -/
theorem C4_counterexample :
    ((createContainer dockerPlain "httpd:latest" "alpha" [] envOk 2
          []).payload.bind
        (fun j => (j.getField? "HostConfig").bind
          (fun h => (h.getField? "PortBindings").bind
            (fun q => q.getField? "80/tcp"))))
      = some (.arr [.obj [("HostPort", .str "30000/tcp")]])
    ∧ ("30000/tcp" : String) ≠ "30000" :=
  ⟨rfl, by decide⟩

/-- C4 corrected: for every attempt whose allocation succeeds (and whose
credentials materialize, in encrypted mode), the creation payload maps the
exposed key "80/tcp" under HostConfig.PortBindings to a one-element list
whose HostPort field is the string "<host_port>/tcp" (protocol suffix
included), with CpuShares 512, Memory 2000000000 and
Env = ["PORTS=<host_port>"]; the create request's body is exactly the
json.dumps of that payload. -/
theorem C4_payload_shape (docker : MockDocker) (image team : String)
    (portbl : List Nat) (env : Env) (fuel : Nat) (fs : List (String × String))
    (p k : Nat)
    (hpick : pickPort env.rand portbl fuel 0 = some (p, k))
    (hcert : docker.tls_enabled = true →
      ∃ cert fs2, certPhase docker env.tmpName fs = (some cert, fs2)) :
    (createContainer docker image team portbl env fuel fs).payload
      = some (mkPayload image [("80/tcp", .obj [])]
          [("80/tcp", .arr [.obj [("HostPort", .str (toString p ++ "/tcp"))]])]
          ["PORTS=" ++ toString p])
    ∧ ((createContainer docker image team portbl env fuel fs).requests.headD
          noReq).body
      = some (mkPayload image [("80/tcp", .obj [])]
          [("80/tcp", .arr [.obj [("HostPort", .str (toString p ++ "/tcp"))]])]
          ["PORTS=" ++ toString p]).dumps := by
  cases htls : docker.tls_enabled with
  | false =>
      rw [cc_plain image team portbl env fuel fs htls]
      exact body_payload_shape _ _ _ _ _ _ _ _ _ _ _ hpick
  | true =>
      obtain ⟨cert, fs2, hcp⟩ := hcert htls
      rw [cc_tls image team portbl env fuel htls hcp]
      exact body_payload_shape _ _ _ _ _ _ _ _ _ _ _ hpick

/-- Witness for the amended C4. -/
theorem C4_witness :
    (createContainer dockerPlain "httpd:latest" "alpha" [] envOk 2
        []).payload
      = some (mkPayload "httpd:latest" [("80/tcp", .obj [])]
          [("80/tcp", .arr [.obj [("HostPort", .str "30000/tcp")]])]
          ["PORTS=30000"])
    ∧ ((createContainer dockerPlain "httpd:latest" "alpha" [] envOk 2
          []).requests.headD noReq).body
      = some (mkPayload "httpd:latest" [("80/tcp", .obj [])]
          [("80/tcp", .arr [.obj [("HostPort", .str "30000/tcp")]])]
          ["PORTS=30000"]).dumps := by
  exact C4_payload_shape dockerPlain "httpd:latest" "alpha" [] envOk 2 []
    30000 1 rfl (fun hh => absurd hh (by decide))

/-- C7: the Identity Namer is a pure deterministic function of (owner,
image): in every run that reaches the create call — whatever the random
stream, daemon responses, filesystem or fuel — the create request URL
embeds `containerName image team`, and that name is exactly the image base
name before the tag separator followed by an underscore and the first 10
hex characters of the MD5 hash of the owner identifier.  Two calls with
identical (owner, image) therefore always produce the identical name. -/
theorem C7_container_name (docker : MockDocker) (image team : String)
    (portbl : List Nat) (env : Env) (fuel : Nat) (fs : List (String × String))
    (p k : Nat)
    (hpick : pickPort env.rand portbl fuel 0 = some (p, k))
    (hcert : docker.tls_enabled = true →
      ∃ cert fs2, certPhase docker env.tmpName fs = (some cert, fs2)) :
    ((createContainer docker image team portbl env fuel fs).requests.headD
        noReq).url
      = (if docker.tls_enabled then "https" else "http") ++ "://"
        ++ docker.hostname ++ "/containers/create?name="
        ++ containerName image team
    ∧ containerName image team
      = ((pySplit image ':').headD "") ++ "_" ++ (md5hex team).take 10 := by
  refine ⟨?_, rfl⟩
  cases htls : docker.tls_enabled with
  | false =>
      rw [cc_plain image team portbl env fuel fs htls]
      exact body_head_url _ _ _ _ _ _ _ _ _ _ _ hpick
  | true =>
      obtain ⟨cert, fs2, hcp⟩ := hcert htls
      rw [cc_tls image team portbl env fuel htls hcp]
      exact body_head_url _ _ _ _ _ _ _ _ _ _ _ hpick

set_option maxRecDepth 10000 in
/-- Witness for C7, with the concrete MD5 value of the owner "alpha". -/
theorem C7_witness :
    ((createContainer dockerPlain "httpd:latest" "alpha" [] envOk 2
        []).requests.headD noReq).url
      = "http://172.17.0.1:2376/containers/create?name=httpd_2c1743a391"
    ∧ containerName "httpd:latest" "alpha" = "httpd_2c1743a391" := by
  have h := C7_container_name dockerPlain "httpd:latest" "alpha" [] envOk 2
    [] 30000 1 rfl (fun hh => absurd hh (by decide))
  refine ⟨?_, ?_⟩
  · rw [h.1]
    rfl
  · rfl

/-- C8: the start call's response is ignored.  Two runs of
`create_container` identical except for the responses to bodiless POSTs
(the start call is the only such request) return the same value, issue the
same requests and write the same files; consequently whole orchestrator
runs are indistinguishable, so an attempt whose creation succeeded is
recorded identically whatever the start call answered. -/
theorem C8_start_response_ignored (docker : MockDocker) (image team : String)
    (portbl : List Nat) (fuel : Nat) (fs : List (String × String))
    (rand : Nat → Nat) (tmp : Nat → String) (net1 net2 : HttpReq → Json)
    (h : ∀ r : HttpReq, r.body.isSome = true → net1 r = net2 r) :
    createContainer docker image team portbl ⟨rand, tmp, net1⟩ fuel fs
      = createContainer docker image team portbl ⟨rand, tmp, net2⟩ fuel fs
    ∧ ∀ (teamOf : Nat → String) (i n : Nat) (portbl2 : List Nat)
        (results : List Json) (fs2 : List (String × String)),
        mainLoop docker image teamOf (fun _ => ⟨rand, tmp, net1⟩) fuel i n
            portbl2 results fs2
          = mainLoop docker image teamOf (fun _ => ⟨rand, tmp, net2⟩) fuel i
              n portbl2 results fs2 := by
  have hcc : ∀ (team2 : String) (portbl2 : List Nat)
      (fs2 : List (String × String)),
      createContainer docker image team2 portbl2 ⟨rand, tmp, net1⟩ fuel fs2
        = createContainer docker image team2 portbl2 ⟨rand, tmp, net2⟩ fuel
            fs2 := by
    intro team2 portbl2 fs2
    have hb : ∀ (tls : Bool) (cert : Option (String × String)),
        createContainerBody docker image team2 portbl2 rand net1 fuel tls
            cert
          = createContainerBody docker image team2 portbl2 rand net2 fuel
              tls cert :=
      fun tls cert =>
        body_net_eq docker image team2 portbl2 rand fuel tls cert net1 net2 h
    simp only [createContainer, hb]
  refine ⟨hcc team portbl fs, ?_⟩
  intro teamOf i n
  induction n generalizing i with
  | zero => intro portbl2 results fs2; rfl
  | succ m ih =>
      intro portbl2 results fs2
      simp only [mainLoop]
      rw [hcc (teamOf i) portbl2 fs2]
      cases hret : (createContainer docker image (teamOf i) portbl2
          ⟨rand, tmp, net2⟩ fuel fs2).ret with
      | none => rfl
      | some r =>
          cases r with
          | error e => rfl
          | ok v =>
              cases v with
              | emptyList => rfl
              | pair result dataStr =>
                  cases hjt : jsonTruthy result with
                  | true =>
                      simp only [hjt]
                      rfl
                  | false =>
                      simp only [hjt, Bool.false_eq_true, if_false]
                      exact ih (i + 1) portbl2 results _

/-- Witness for C8: the daemon oracles `netOk` and `netStartErr` differ
exactly on the start call, and the attempt's outcome is identical. -/
theorem C8_witness :
    createContainer dockerPlain "httpd:latest" "alpha" []
        ⟨fun _ => 0, tmpNames, netOk⟩ 2 []
      = createContainer dockerPlain "httpd:latest" "alpha" []
          ⟨fun _ => 0, tmpNames, netStartErr⟩ 2 [] := by
  exact (C8_start_response_ignored dockerPlain "httpd:latest" "alpha" [] 2
    [] (fun _ => 0) tmpNames netOk netStartErr
    (fun r hr => by simp [netOk, netStartErr, hr])).1

/-- The body of `create_container` depends on the connection profile only
through its hostname (the exposed-ports lookup ignores its arguments). -/
theorem body_hostname_only (d1 d2 : MockDocker) (image team : String)
    (portbl : List Nat) (rand : Nat → Nat) (net : HttpReq → Json)
    (fuel : Nat) (tls : Bool) (cert : Option (String × String))
    (h : d1.hostname = d2.hostname) :
    createContainerBody d1 image team portbl rand net fuel tls cert
      = createContainerBody d2 image team portbl rand net fuel tls cert := by
  simp only [createContainerBody, prepareCreate, get_required_ports, h]

/-- Rewriting a path with different contents, or into filesystems that
agree on paths, yields filesystems that agree on paths. -/
theorem fsWrite_map_fst_congr {fs1 fs2 : List (String × String)}
    (p c1 c2 : String) (h : fs1.map Prod.fst = fs2.map Prod.fst) :
    (fsWrite fs1 p c1).map Prod.fst = (fsWrite fs2 p c2).map Prod.fst := by
  rw [fsWrite_map_fst, fsWrite_map_fst, h]

/-- C10: the CA certificate bytes are written to a temp file but never
attached to any HTTP request — `CERT` holds only the client-certificate
and key paths, and verification is disabled.  Two runs identical except
for the CA bytes return the same value, issue the same requests, and
create files at the same paths (only the CA file's content differs). -/
theorem C10_ca_bytes_not_sent (docker : MockDocker) (ca1 ca2 : String)
    (image team : String) (portbl : List Nat) (env : Env) (fuel : Nat)
    (fs : List (String × String)) :
    (createContainer { docker with ca_cert := some ca1 } image team portbl
        env fuel fs).ret
      = (createContainer { docker with ca_cert := some ca2 } image team
          portbl env fuel fs).ret
    ∧ (createContainer { docker with ca_cert := some ca1 } image team portbl
        env fuel fs).requests
      = (createContainer { docker with ca_cert := some ca2 } image team
          portbl env fuel fs).requests
    ∧ (createContainer { docker with ca_cert := some ca1 } image team portbl
        env fuel fs).fs.map Prod.fst
      = (createContainer { docker with ca_cert := some ca2 } image team
          portbl env fuel fs).fs.map Prod.fst := by
  have hbody := body_hostname_only { docker with ca_cert := some ca1 }
    { docker with ca_cert := some ca2 } image team portbl env.rand env.net
    fuel
  cases htls : docker.tls_enabled with
  | false =>
      rw [htls] at hbody
      rw [cc_plain image team portbl env fuel fs rfl,
        cc_plain image team portbl env fuel fs rfl]
      rw [hbody false none rfl]
      exact ⟨rfl, rfl, rfl⟩
  | true =>
      rw [htls] at hbody
      cases hcc : docker.client_cert with
      | none =>
          have h1 : certPhase { docker with ca_cert := some ca1 }
              env.tmpName fs = (none, fsWrite (fsWrite fs (env.tmpName 0)
                ca1) (env.tmpName 1) "") := by
            simp [certPhase, hcc]
          have h2 : certPhase { docker with ca_cert := some ca2 }
              env.tmpName fs = (none, fsWrite (fsWrite fs (env.tmpName 0)
                ca2) (env.tmpName 1) "") := by
            simp [certPhase, hcc]
          rw [htls, hcc] at h1 h2
          rw [cc_certfail image team portbl env fuel rfl h1,
            cc_certfail image team portbl env fuel rfl h2]
          exact ⟨rfl, rfl, fsWrite_map_fst_congr _ _ _
            (fsWrite_map_fst_congr _ _ _ rfl)⟩
      | some cc =>
          cases hck : docker.client_key with
          | none =>
              have h1 : certPhase { docker with ca_cert := some ca1 }
                  env.tmpName fs = (none, fsWrite (fsWrite (fsWrite fs
                    (env.tmpName 0) ca1) (env.tmpName 1) cc)
                    (env.tmpName 2) "") := by
                simp [certPhase, hcc, hck]
              have h2 : certPhase { docker with ca_cert := some ca2 }
                  env.tmpName fs = (none, fsWrite (fsWrite (fsWrite fs
                    (env.tmpName 0) ca2) (env.tmpName 1) cc)
                    (env.tmpName 2) "") := by
                simp [certPhase, hcc, hck]
              rw [htls, hcc, hck] at h1 h2
              rw [cc_certfail image team portbl env fuel rfl h1,
                cc_certfail image team portbl env fuel rfl h2]
              exact ⟨rfl, rfl, fsWrite_map_fst_congr _ _ _
                (fsWrite_map_fst_congr _ _ _
                  (fsWrite_map_fst_congr _ _ _ rfl))⟩
          | some ck =>
              have h1 : certPhase { docker with ca_cert := some ca1 }
                  env.tmpName fs = (some (env.tmpName 1, env.tmpName 2),
                    fsWrite (fsWrite (fsWrite fs (env.tmpName 0) ca1)
                    (env.tmpName 1) cc) (env.tmpName 2) ck) := by
                simp [certPhase, hcc, hck]
              have h2 : certPhase { docker with ca_cert := some ca2 }
                  env.tmpName fs = (some (env.tmpName 1, env.tmpName 2),
                    fsWrite (fsWrite (fsWrite fs (env.tmpName 0) ca2)
                    (env.tmpName 1) cc) (env.tmpName 2) ck) := by
                simp [certPhase, hcc, hck]
              rw [htls, hcc, hck] at h1 h2
              rw [hcc, hck] at hbody
              rw [cc_tls image team portbl env fuel rfl h1,
                cc_tls image team portbl env fuel rfl h2]
              rw [hbody true (some (env.tmpName 1, env.tmpName 2)) rfl]
              exact ⟨rfl, rfl, fsWrite_map_fst_congr _ _ _
                (fsWrite_map_fst_congr _ _ _
                  (fsWrite_map_fst_congr _ _ _ rfl))⟩

/-! ## MD5 validation against RFC 1321 and hashlib test vectors -/

set_option maxRecDepth 10000 in
/-- Known digest of the empty string. -/
theorem md5hex_empty : md5hex "" = "d41d8cd98f00b204e9800998ecf8427e" := by
  rfl

set_option maxRecDepth 10000 in
/-- Known digest of "abc" (RFC 1321 appendix test suite). -/
theorem md5hex_abc : md5hex "abc" = "900150983cd24fb0d6963f7d28e17f72" := by
  rfl

set_option maxRecDepth 10000 in
/-- Digest of the owner "alpha" used by the end-to-end scenario. -/
theorem md5hex_alpha :
    md5hex "alpha" = "2c1743a391305fbf367df8e4f069f9f9" := by
  rfl

end Stress
